import Mathlib

/-!
Verification of `viswsl/utils/distributed.py`: a shallow embedding of the
distributed-bootstrap helper and proofs about its behaviour.

The Python module reads process-group bootstrap parameters from environment
variables (or explicit arguments), delegates group formation to the external
`torch.distributed` runtime, and exposes small query helpers.  We embed the
module as explicit state-passing functions over a `World` record that carries
the process environment, the CUDA-availability flag, the (modelled) state of
the external collective runtime, the sequence of environment keys looked up,
and the log lines emitted.  External runtime calls are modelled by their
contract, with an oracle parameter deciding whether group formation succeeds
or raises.
-/

set_option autoImplicit false

namespace Viswsl

/-- A process environment: an association list from variable names to values
(first binding wins, as in a Python `os.environ` mapping with unique keys). -/
abbrev Env := List (String × String)

/-- Look up a key in the environment (`os.environ.get(k)` without default). -/
def envGet : Env → String → Option String
  | [], _ => none
  | (k', v') :: rest, k => if k' = k then some v' else envGet rest k

/-- Write a key in the environment (`os.environ[k] = v`): replace the first
binding of `k`, or append a new one. -/
def envSet : Env → String → String → Env
  | [], k, v => [(k, v)]
  | (k', v') :: rest, k, v =>
      if k' = k then (k, v) :: rest else (k', v') :: envSet rest k v

/-- The state of a formed `torch.distributed` process group, as far as this
module observes it: the world size and this process's global rank. -/
structure Group where
  world_size : Int
  rank : Int
deriving DecidableEq

/-- Python exceptions that the embedded code can raise or propagate. -/
inductive PyError where
  /-- `AssertionError` with its message (a failed `assert`). -/
  | assertionError : String → PyError
  /-- `KeyError` from `os.environ[k]` on a missing key `k`. -/
  | keyError : String → PyError
  /-- `ValueError` from `int(s)` on a non-numeric string `s`. -/
  | valueError : String → PyError
  /-- Any failure raised inside the external `torch.distributed` runtime. -/
  | distError : String → PyError
deriving DecidableEq

/-- The per-process state the module interacts with: the process environment,
whether CUDA reports an available device, the external runtime's group state
(`none` until `init_process_group` succeeds), the bound CUDA device index,
the environment keys looked up so far, and the log lines emitted so far. -/
structure World where
  env : Env
  cuda_available : Bool
  dist_group : Option Group
  device : Option Int
  reads : List String
  logs : List String
deriving DecidableEq

/-- Split a character list at every occurrence of `sep`, keeping empty
pieces, accumulating the current piece in reverse. -/
def splitAux (sep : Char) : List Char → List Char → List (List Char)
  | [], acc => [acc.reverse]
  | c :: cs, acc =>
      if c = sep then acc.reverse :: splitAux sep cs []
      else splitAux sep cs (c :: acc)

/-- Python `s.split(sep)` for a one-character separator: split at every
occurrence, keeping empty pieces (so the result is never empty). -/
def pySplit (s : String) (sep : Char) : List String :=
  (splitAux sep s.data []).map List.asString

/-- Read a non-empty all-digit character list as a natural number. -/
def digitsToNat : List Char → Option Nat
  | [] => none
  | cs => cs.foldl (fun acc c =>
      match acc with
      | none => none
      | some n => if c.isDigit then some (n * 10 + (c.toNat - '0'.toNat)) else none)
      (some 0)

/-- Parse an optional sign followed by digits. -/
def pyIntAux : List Char → Option Int
  | [] => none
  | '-' :: cs => (digitsToNat cs).map (fun n => -(n : Int))
  | '+' :: cs => (digitsToNat cs).map (fun n => (n : Int))
  | cs => (digitsToNat cs).map (fun n => (n : Int))

/-- `os.environ.get(k, d)`: record the lookup of `k` and return its value, or
`d` when `k` is unbound. -/
def environGetD (w : World) (k d : String) : String × World :=
  ((envGet w.env k).getD d, { w with reads := w.reads ++ [k] })

/-- `os.environ[k]`: record the lookup of `k` and return its value, raising
`KeyError` when `k` is unbound. -/
def environGetItem (w : World) (k : String) : Except PyError String × World :=
  (match envGet w.env k with
   | some v => Except.ok v
   | none => Except.error (PyError.keyError k),
   { w with reads := w.reads ++ [k] })

/-- `os.environ[k] = v`. -/
def environSetItem (w : World) (k v : String) : World :=
  { w with env := envSet w.env k v }

/-- Python `int(s)` on a decimal string (optional leading sign); `none`
models the `ValueError` raised on a non-numeric string.  (Python also strips
surrounding whitespace and allows digit-group underscores; the environment
values of interest here are plain signed decimals.) -/
def pyInt? (s : String) : Option Int := pyIntAux s.data

/-- `logging.getLogger(__name__).error(msg)`: append one log line. -/
def logError (w : World) (msg : String) : World :=
  { w with logs := w.logs ++ [msg] }

/-- `torch.cuda.set_device(local_rank)`: bind this process to the CUDA device
at the given index (external call; modelled as recording the index). -/
def set_device (local_rank : Int) (w : World) : World :=
  { w with device := some local_rank }

/-- `torch.distributed.barrier()`: external collective; blocks until all
processes arrive, changing no per-process state that this module observes. -/
def barrier (w : World) : World := w

/-- `synchronize()` (source lines 106-109): barrier the group when one has
been formed, otherwise do nothing. -/
def synchronize (w : World) : World :=
  if w.dist_group.isSome then barrier w else w

/-- `get_world_size()` (source lines 112-114): the group's world size, or `1`
when no group has been formed. -/
def get_world_size (w : World) : Int :=
  match w.dist_group with
  | some g => g.world_size
  | none => 1

/-- `get_rank()` (source lines 117-119): this process's rank in the group, or
`0` when no group has been formed. -/
def get_rank (w : World) : Int :=
  match w.dist_group with
  | some g => g.rank
  | none => 0

/-- `is_master_process()` (source lines 122-128): whether this process has
rank `0`. -/
def is_master_process (w : World) : Bool :=
  get_rank w == 0

/-- A tensor, modelled as a list of exact rational entries. -/
abbrev Tensor := List ℚ

/-- Elementwise sum of two equally-shaped tensors. -/
def tensorAdd (a b : Tensor) : Tensor := List.zipWith (· + ·) a b

/-- Elementwise division of a tensor by a scalar (`t /= c`). -/
def tensorDiv (t : Tensor) (c : ℚ) : Tensor := t.map (· / c)

/-- `torch.distributed.all_reduce(t, op=SUM)`: external collective, modelled
by its contract — every process's tensor is replaced by the elementwise sum
of the tensors held by all processes in the group. -/
def allReduceSum : List Tensor → Tensor
  | [] => []
  | [t] => t
  | t :: rest => tensorAdd t (allReduceSum rest)

/-- `average_across_processes(t)` (source lines 130-138), evaluated on one
process.  `group_tensors` is the collection of tensors held by the group's
member processes (this process's `t` among them), consumed by the external
`all_reduce` collective; when no group has been formed the tensor is
returned unchanged. -/
def average_across_processes (w : World) (group_tensors : List Tensor)
    (t : Tensor) : Tensor :=
  if w.dist_group.isSome then
    tensorDiv (allReduceSum group_tensors) ((get_world_size w : Int) : ℚ)
  else t

/-- `torch.distributed.init_process_group(backend, init_method="env://")`:
external runtime call, modelled by its contract.  The `env://` rendezvous
reads `MASTER_ADDR`, `MASTER_PORT`, `RANK` and `WORLD_SIZE` from the
environment; when the oracle `outcome` is `none` the call succeeds and forms
a group whose size and rank are the integer values of `WORLD_SIZE` and
`RANK`, and `outcome = some e` models the runtime raising `e`. -/
def init_process_group_env (backend : String) (outcome : Option PyError)
    (w : World) : Except PyError Unit × World :=
  let _ := backend
  let w := { w with
    reads := w.reads ++ ["MASTER_ADDR", "MASTER_PORT", "RANK", "WORLD_SIZE"] }
  match outcome with
  | some e => (Except.error e, w)
  | none =>
      let ws := ((envGet w.env "WORLD_SIZE").bind pyInt?).getD 1
      let rk := ((envGet w.env "RANK").bind pyInt?).getD 0
      (Except.ok (), { w with dist_group := some ⟨ws, rk⟩ })

/-- `torch.distributed.init_process_group(backend, init_method=dist_url,
world_size=ws, rank=rk)`: external runtime call with explicit rendezvous
parameters; on success the group is formed with exactly the given size and
rank, and `outcome = some e` models the runtime raising `e`. -/
def init_process_group_tcp (backend dist_url : String) (ws rk : Int)
    (outcome : Option PyError) (w : World) : Except PyError Unit × World :=
  let _ := backend
  let _ := dist_url
  match outcome with
  | some e => (Except.error e, w)
  | none => (Except.ok (), { w with dist_group := some ⟨ws, rk⟩ })

/-- Source lines 42-45: resolve `MASTER_ADDR` (explicit value, else the last
comma-separated entry of `SLURM_NODELIST`, else `"localhost"`) and write it
back to the environment.  Python evaluates the inner `get` (the default
argument) before the outer one. -/
def set_master_addr (w : World) : World :=
  let (nodelist, w) := environGetD w "SLURM_NODELIST" "localhost"
  let (addr, w) := environGetD w "MASTER_ADDR" ((pySplit nodelist ',').getLastD "")
  environSetItem w "MASTER_ADDR" addr

/-- Source lines 46-48: resolve `RANK` (explicit value, else `SLURM_PROCID`,
else `"0"`) and write it back to the environment. -/
def set_rank_env (w : World) : World :=
  let (procid, w) := environGetD w "SLURM_PROCID" "0"
  let (rank, w) := environGetD w "RANK" procid
  environSetItem w "RANK" rank

/-- Source lines 49-51: resolve `WORLD_SIZE` (explicit value, else
`SLURM_NTASKS`, else `"1"`) and write it back to the environment. -/
def set_world_size_env (w : World) : World :=
  let (ntasks, w) := environGetD w "SLURM_NTASKS" "1"
  let (ws, w) := environGetD w "WORLD_SIZE" ntasks
  environSetItem w "WORLD_SIZE" ws

/-- The `try` block of `init_distributed_env` (source lines 52-56): parse
`int(os.environ["WORLD_SIZE"])` and, when it exceeds `1`, call the external
group-formation primitive followed by `synchronize()`. -/
def env_try_block (backend : String) (pg : Option PyError) (w : World) :
    Except PyError Unit × World :=
  match environGetItem w "WORLD_SIZE" with
  | (Except.error e, w) => (Except.error e, w)
  | (Except.ok s, w) =>
      match pyInt? s with
      | none => (Except.error (PyError.valueError s), w)
      | some ws =>
          if ws > 1 then
            match init_process_group_env backend pg w with
            | (Except.error e, w) => (Except.error e, w)
            | (Except.ok _, w) => (Except.ok (), synchronize w)
          else (Except.ok (), w)

/-- The `except` handler of `init_distributed_env` (source lines 57-62): log
`"Dist URL: {MASTER_ADDR}:{MASTER_PORT}"` and re-raise the caught exception.
Both environment accesses are `os.environ[...]` subscripts, so a missing
`MASTER_PORT` raises `KeyError` out of the handler itself. -/
def env_except_handler (e : PyError) (w : World) : Except PyError Int × World :=
  match environGetItem w "MASTER_ADDR" with
  | (Except.error e2, w) => (Except.error e2, w)
  | (Except.ok a, w) =>
      match environGetItem w "MASTER_PORT" with
      | (Except.error e2, w) => (Except.error e2, w)
      | (Except.ok p, w) =>
          (Except.error e, logError w ("Dist URL: " ++ a ++ ":" ++ p))

/-- Source lines 64-70: resolve `LOCAL_RANK` (explicit value, else
`SLURM_LOCALID`, else `"0"`), parse it with `int(...)`, bind the CUDA device
at that index and return it. -/
def resolve_local_rank (w : World) : Except PyError Int × World :=
  let (localid, w) := environGetD w "SLURM_LOCALID" "0"
  let (lrs, w) := environGetD w "LOCAL_RANK" localid
  match pyInt? lrs with
  | none => (Except.error (PyError.valueError lrs), w)
  | some lr => (Except.ok lr, set_device lr w)

/-- `init_distributed_env(backend)` (source lines 8-70).  `pg` is the oracle
for the external `init_process_group` call.  Returns the Python return value
(the bound local rank) or the raised exception, with the final state. -/
def init_distributed_env (backend : String) (pg : Option PyError) (w : World) :
    Except PyError Int × World :=
  if w.cuda_available then
    match env_try_block backend pg
        (set_world_size_env (set_rank_env (set_master_addr w))) with
    | (Except.error e, w) => env_except_handler e w
    | (Except.ok _, w) => resolve_local_rank w
  else (Except.error (PyError.assertionError "Cannot use GPU, CUDA not found!"), w)

/-- Source line 82: `world_size = num_machines * num_gpus_per_machine`. -/
def tcp_world_size (num_machines num_gpus_per_machine : Int) : Int :=
  num_machines * num_gpus_per_machine

/-- Source line 83: `world_rank = machine_rank * num_gpus_per_machine +
local_rank`. -/
def tcp_world_rank (machine_rank num_gpus_per_machine local_rank : Int) : Int :=
  machine_rank * num_gpus_per_machine + local_rank

/-- The `try` block of `init_distributed_tcp` (source lines 85-94): when the
computed world size exceeds `1`, call the external group-formation primitive
with the explicit rendezvous parameters; then `synchronize()` (which, unlike
in `init_distributed_env`, sits outside the `if` but inside the `try`). -/
def tcp_try_block (backend dist_url : String) (ws rk : Int)
    (pg : Option PyError) (w : World) : Except PyError Unit × World :=
  if ws > 1 then
    match init_process_group_tcp backend dist_url ws rk pg w with
    | (Except.error e, w) => (Except.error e, w)
    | (Except.ok _, w) => (Except.ok (), synchronize w)
  else (Except.ok (), synchronize w)

/-- `init_distributed_tcp(local_rank, machine_rank, num_gpus_per_machine,
num_machines, dist_url, backend)` (source lines 73-103).  `pg` is the oracle
for the external `init_process_group` call. -/
def init_distributed_tcp (local_rank machine_rank num_gpus_per_machine
    num_machines : Int) (dist_url backend : String) (pg : Option PyError)
    (w : World) : Except PyError Int × World :=
  if w.cuda_available then
    match tcp_try_block backend dist_url
        (tcp_world_size num_machines num_gpus_per_machine)
        (tcp_world_rank machine_rank num_gpus_per_machine local_rank) pg w with
    | (Except.error e, w) => (Except.error e, logError w ("Dist URL: " ++ dist_url))
    | (Except.ok _, w) => (Except.ok local_rank, set_device local_rank w)
  else (Except.error (PyError.assertionError "Cannot use GPU, CUDA not found!"), w)

/-- The value the `MASTER_ADDR` fallback chain resolves to, spelled the way
the specification describes it: the explicit override, else the last
comma-separated entry of `SLURM_NODELIST`, else `"localhost"`. -/
def spec_master_addr (env : Env) : String :=
  match envGet env "MASTER_ADDR" with
  | some a => a
  | none =>
      match envGet env "SLURM_NODELIST" with
      | some s => (pySplit s ',').getLastD ""
      | none => "localhost"

/-- The value the `RANK` fallback chain resolves to. -/
def spec_rank (env : Env) : String :=
  (envGet env "RANK").getD ((envGet env "SLURM_PROCID").getD "0")

/-- The value the `WORLD_SIZE` fallback chain resolves to. -/
def spec_world_size (env : Env) : String :=
  (envGet env "WORLD_SIZE").getD ((envGet env "SLURM_NTASKS").getD "1")

/-- The value the `LOCAL_RANK` fallback chain resolves to. -/
def spec_local_rank (env : Env) : String :=
  (envGet env "LOCAL_RANK").getD ((envGet env "SLURM_LOCALID").getD "0")

/-- A single-process world with an empty environment, CUDA available and no
group formed: the base state used by concrete witnesses. -/
def baseWorld : World :=
  { env := [], cuda_available := true, dist_group := none, device := none,
    reads := [], logs := [] }

/-- The world of C7's concrete scenario: `RANK=2`, `WORLD_SIZE=4` with a
rendezvous address and port pre-set. -/
def rankTwoWorld : World :=
  { env := [("MASTER_ADDR", "127.0.0.1"), ("MASTER_PORT", "29500"),
      ("RANK", "2"), ("WORLD_SIZE", "4")],
    cuda_available := true, dist_group := none, device := none,
    reads := [], logs := [] }

/-- A SLURM-style world: scheduler variables set, `WORLD_SIZE=1` explicitly
overriding `SLURM_NTASKS`, and no explicit `MASTER_ADDR`, `RANK` or
`LOCAL_RANK`. -/
def slurmWorld : World :=
  { env := [("SLURM_NODELIST", "node1,node2"), ("SLURM_PROCID", "3"),
      ("SLURM_NTASKS", "4"), ("SLURM_LOCALID", "1"), ("WORLD_SIZE", "1")],
    cuda_available := true, dist_group := none, device := none,
    reads := [], logs := [] }

/-- A world asking for a two-process group while `MASTER_PORT` is absent
from the environment. -/
def portlessWorld : World :=
  { env := [("WORLD_SIZE", "2")], cuda_available := true, dist_group := none,
    device := none, reads := [], logs := [] }

/-- A two-process world whose group has been formed with ranks `0` and `1`
(this process holding rank `0`), used to evaluate the collective mean. -/
def groupedWorld : World :=
  { env := [], cuda_available := true, dist_group := some ⟨2, 0⟩,
    device := none, reads := [], logs := [] }

/-! ### Basic lemmas about the environment and the helpers -/

theorem envGet_envSet (e : Env) (k v k' : String) :
    envGet (envSet e k v) k' = if k' = k then some v else envGet e k' := by
  induction e with
  | nil =>
      by_cases h : k' = k
      · subst h; simp [envSet, envGet]
      · simp [envSet, envGet, h, Ne.symm h]
  | cons p rest ih =>
      obtain ⟨k'', v''⟩ := p
      by_cases h1 : k'' = k
      · subst h1
        by_cases h2 : k' = k''
        · subst h2; simp [envSet, envGet]
        · simp [envSet, envGet, h2, Ne.symm h2]
      · by_cases h2 : k' = k''
        · subst h2
          simp [envSet, envGet, h1, Ne.symm h1]
        · simp [envSet, envGet, h1, h2, Ne.symm h2, ih]

theorem envGet_envSet_self (e : Env) (k v : String) :
    envGet (envSet e k v) k = some v := by
  simp [envGet_envSet]

theorem envGet_envSet_ne (e : Env) (k v k' : String) (h : k' ≠ k) :
    envGet (envSet e k v) k' = envGet e k' := by
  simp [envGet_envSet, h]

theorem synchronize_eq (w : World) : synchronize w = w := by
  cases h : w.dist_group.isSome <;> simp [synchronize, barrier, h]

/-- After the three resolution writes (source lines 42-51) the environment
holds the three resolved chain values and the six scheduler/override keys
have been looked up, in program order. -/
theorem resolve_phase_eq (w : World) :
    set_world_size_env (set_rank_env (set_master_addr w)) =
      { w with
        env := envSet (envSet (envSet w.env "MASTER_ADDR" (spec_master_addr w.env))
          "RANK" (spec_rank w.env)) "WORLD_SIZE" (spec_world_size w.env),
        reads := w.reads ++ ["SLURM_NODELIST", "MASTER_ADDR", "SLURM_PROCID",
          "RANK", "SLURM_NTASKS", "WORLD_SIZE"] } := by
  have hloc : (pySplit "localhost" ',').getLastD "" = "localhost" := by decide
  have hloc2 : (pySplit "localhost" ',').getLast?.getD "" = "localhost" := by decide
  have hM : set_master_addr w =
      { w with env := envSet w.env "MASTER_ADDR" (spec_master_addr w.env),
               reads := w.reads ++ ["SLURM_NODELIST", "MASTER_ADDR"] } := by
    cases hA : envGet w.env "MASTER_ADDR" <;>
      cases hN : envGet w.env "SLURM_NODELIST" <;>
        simp [set_master_addr, environGetD, environSetItem, spec_master_addr,
          hA, hN, hloc, hloc2]
  have hR : ∀ u : World, set_rank_env u =
      { u with env := envSet u.env "RANK" (spec_rank u.env),
               reads := u.reads ++ ["SLURM_PROCID", "RANK"] } := by
    intro u
    cases hA : envGet u.env "RANK" <;>
      cases hN : envGet u.env "SLURM_PROCID" <;>
        simp [set_rank_env, environGetD, environSetItem, spec_rank, hA, hN]
  have hS : ∀ u : World, set_world_size_env u =
      { u with env := envSet u.env "WORLD_SIZE" (spec_world_size u.env),
               reads := u.reads ++ ["SLURM_NTASKS", "WORLD_SIZE"] } := by
    intro u
    cases hA : envGet u.env "WORLD_SIZE" <;>
      cases hN : envGet u.env "SLURM_NTASKS" <;>
        simp [set_world_size_env, environGetD, environSetItem, spec_world_size, hA, hN]
  rw [hM, hR, hS]
  have h1 : spec_rank { w with
      env := envSet w.env "MASTER_ADDR" (spec_master_addr w.env),
      reads := w.reads ++ ["SLURM_NODELIST", "MASTER_ADDR"] }.env = spec_rank w.env := by
    simp only [spec_rank]
    rw [envGet_envSet_ne _ _ _ _ (by decide), envGet_envSet_ne _ _ _ _ (by decide)]
  have h2 : spec_world_size (envSet (envSet w.env "MASTER_ADDR" (spec_master_addr w.env))
      "RANK" (spec_rank w.env)) = spec_world_size w.env := by
    simp only [spec_world_size]
    rw [envGet_envSet_ne _ _ _ _ (by decide), envGet_envSet_ne _ _ _ _ (by decide),
      envGet_envSet_ne _ _ _ _ (by decide), envGet_envSet_ne _ _ _ _ (by decide)]
  simp [h1, h2, List.append_assoc]

/-- The `try` block never changes the environment. -/
theorem env_try_block_env (backend : String) (pg : Option PyError) (w : World) :
    (env_try_block backend pg w).2.env = w.env := by
  unfold env_try_block environGetItem init_process_group_env
  cases hA : envGet w.env "WORLD_SIZE" with
  | none => simp [hA]
  | some s =>
      cases hP : pyInt? s with
      | none => simp [hA, hP]
      | some n =>
          by_cases hn : n > 1
          · cases pg <;> simp [hA, hP, hn, synchronize_eq]
          · simp [hA, hP, hn]

/-- The `except` handler never changes the environment. -/
theorem env_except_handler_env (e : PyError) (w : World) :
    (env_except_handler e w).2.env = w.env := by
  unfold env_except_handler environGetItem logError
  cases hA : envGet w.env "MASTER_ADDR" <;>
    cases hP : envGet w.env "MASTER_PORT" <;> simp [hA, hP]

/-- The `except` handler never returns normally. -/
theorem env_except_handler_ne_ok (e : PyError) (w : World) (v : Int) (w' : World) :
    env_except_handler e w ≠ (Except.ok v, w') := by
  unfold env_except_handler environGetItem logError
  cases hA : envGet w.env "MASTER_ADDR" <;>
    cases hP : envGet w.env "MASTER_PORT" <;> simp [hA, hP]

/-- The local-rank resolution never changes the environment. -/
theorem resolve_local_rank_env (w : World) :
    (resolve_local_rank w).2.env = w.env := by
  unfold resolve_local_rank environGetD set_device
  cases hP : pyInt? ((envGet w.env "LOCAL_RANK").getD
      ((envGet w.env "SLURM_LOCALID").getD "0")) <;> simp [hP]

/-- What a successful local-rank resolution looks like. -/
theorem resolve_local_rank_ok (w : World) (v : Int) (w' : World)
    (h : resolve_local_rank w = (Except.ok v, w')) :
    pyInt? (spec_local_rank w.env) = some v ∧
    w' = { w with reads := w.reads ++ ["SLURM_LOCALID", "LOCAL_RANK"],
                  device := some v } := by
  unfold resolve_local_rank environGetD set_device at h
  unfold spec_local_rank
  cases hP : pyInt? ((envGet w.env "LOCAL_RANK").getD
      ((envGet w.env "SLURM_LOCALID").getD "0")) with
  | none => simp [hP] at h
  | some lr =>
      simp [hP, List.append_assoc] at h ⊢
      obtain ⟨h1, h2⟩ := h
      subst h1
      exact ⟨rfl, h2.symm⟩

/-- When the freshly written `WORLD_SIZE` parses to at most `1`, the `try`
block reads only `WORLD_SIZE` and succeeds without touching the group. -/
theorem env_try_block_le_one (backend : String) (pg : Option PyError) (w : World)
    (s : String) (n : Int) (hA : envGet w.env "WORLD_SIZE" = some s)
    (hP : pyInt? s = some n) (hn : n ≤ 1) :
    env_try_block backend pg w =
      (Except.ok (), { w with reads := w.reads ++ ["WORLD_SIZE"] }) := by
  unfold env_try_block environGetItem
  simp [hA, hP, not_lt.mpr hn]

/-- The three resolution writes do not disturb the `LOCAL_RANK` fallback
chain. -/
theorem spec_local_rank_writes (env : Env) (a b c : String) :
    spec_local_rank (envSet (envSet (envSet env "MASTER_ADDR" a) "RANK" b)
      "WORLD_SIZE" c) = spec_local_rank env := by
  unfold spec_local_rank
  rw [envGet_envSet_ne _ _ _ _ (by decide), envGet_envSet_ne _ _ _ _ (by decide),
    envGet_envSet_ne _ _ _ _ (by decide), envGet_envSet_ne _ _ _ _ (by decide),
    envGet_envSet_ne _ _ _ _ (by decide), envGet_envSet_ne _ _ _ _ (by decide)]

/-- What the local-rank resolution does when the chain value parses. -/
theorem resolve_local_rank_of_parse (w : World) (l : Int)
    (h : pyInt? (spec_local_rank w.env) = some l) :
    resolve_local_rank w =
      (Except.ok l, { w with reads := w.reads ++ ["SLURM_LOCALID", "LOCAL_RANK"],
                             device := some l }) := by
  unfold spec_local_rank at h
  unfold resolve_local_rank environGetD set_device
  simp [h, List.append_assoc]

/-- The `try` block when the freshly written `WORLD_SIZE` parses above `1`
and the external group formation fails: the caught error comes back and the
rendezvous keys have been read by the runtime. -/
theorem env_try_block_gt_one_fail (backend : String) (e : PyError) (w : World)
    (s : String) (n : Int) (hA : envGet w.env "WORLD_SIZE" = some s)
    (hP : pyInt? s = some n) (hn : 1 < n) :
    env_try_block backend (some e) w =
      (Except.error e, { w with reads := w.reads ++
        ["WORLD_SIZE", "MASTER_ADDR", "MASTER_PORT", "RANK", "WORLD_SIZE"] }) := by
  unfold env_try_block environGetItem init_process_group_env
  simp [hA, hP, hn, List.append_assoc]

/-- The `try` block when the freshly written `WORLD_SIZE` parses above `1`
and the external group formation succeeds: a group is formed with the parsed
`WORLD_SIZE` and `RANK` environment values. -/
theorem env_try_block_gt_one_ok (backend : String) (w : World) (s : String)
    (n r : Int) (hA : envGet w.env "WORLD_SIZE" = some s) (hP : pyInt? s = some n)
    (hn : 1 < n) (hR : ((envGet w.env "RANK").bind pyInt?).getD 0 = r) :
    env_try_block backend none w =
      (Except.ok (),
        { w with
            reads := w.reads ++ ["WORLD_SIZE", "MASTER_ADDR", "MASTER_PORT",
              "RANK", "WORLD_SIZE"],
            dist_group := some ⟨n, r⟩ }) := by
  unfold env_try_block environGetItem init_process_group_env
  simp [hA, hP, hn, synchronize_eq, List.append_assoc, hR]

/-- The `except` handler when `MASTER_ADDR` and `MASTER_PORT` are both
present: log the rendezvous address and port and re-raise the caught
exception unchanged. -/
theorem env_except_handler_present (e : PyError) (w : World) (a p : String)
    (hA : envGet w.env "MASTER_ADDR" = some a)
    (hP : envGet w.env "MASTER_PORT" = some p) :
    env_except_handler e w =
      (Except.error e,
        { w with
            reads := w.reads ++ ["MASTER_ADDR", "MASTER_PORT"],
            logs := w.logs ++ ["Dist URL: " ++ a ++ ":" ++ p] }) := by
  unfold env_except_handler environGetItem logError
  simp [hA, hP, List.append_assoc]

/-- Evaluation shape of `init_distributed_env` when the `try` block
succeeds. -/
theorem init_env_eval_ok (bk : String) (pg : Option PyError) (w w4 : World)
    (hc : w.cuda_available = true)
    (hT : env_try_block bk pg (set_world_size_env (set_rank_env
      (set_master_addr w))) = (Except.ok (), w4)) :
    init_distributed_env bk pg w = resolve_local_rank w4 := by
  unfold init_distributed_env
  rw [if_pos hc, hT]

/-- Evaluation shape of `init_distributed_env` when the `try` block raises. -/
theorem init_env_eval_error (bk : String) (pg : Option PyError) (w w4 : World)
    (e : PyError) (hc : w.cuda_available = true)
    (hT : env_try_block bk pg (set_world_size_env (set_rank_env
      (set_master_addr w))) = (Except.error e, w4)) :
    init_distributed_env bk pg w = env_except_handler e w4 := by
  unfold init_distributed_env
  rw [if_pos hc, hT]

/-- The `LOCAL_RANK` chain seen after the three resolution writes equals the
one over the original environment. -/
theorem spec_local_rank_after_phases (w : World) :
    spec_local_rank (set_world_size_env (set_rank_env (set_master_addr w))).env =
      spec_local_rank w.env := by
  rw [resolve_phase_eq]
  exact spec_local_rank_writes w.env _ _ _

/-- After the three resolution writes, `WORLD_SIZE` is bound to its chain
value. -/
theorem envGet_after_phases_ws (w : World) :
    envGet (set_world_size_env (set_rank_env (set_master_addr w))).env
      "WORLD_SIZE" = some (spec_world_size w.env) := by
  rw [resolve_phase_eq]
  exact envGet_envSet_self _ _ _

/-- After the three resolution writes, `RANK` is bound to its chain value. -/
theorem envGet_after_phases_rank (w : World) :
    envGet (set_world_size_env (set_rank_env (set_master_addr w))).env
      "RANK" = some (spec_rank w.env) := by
  rw [resolve_phase_eq]
  show envGet (envSet (envSet (envSet w.env "MASTER_ADDR" (spec_master_addr w.env))
    "RANK" (spec_rank w.env)) "WORLD_SIZE" (spec_world_size w.env)) "RANK" =
    some (spec_rank w.env)
  rw [envGet_envSet_ne _ _ _ _ (by decide)]
  exact envGet_envSet_self _ _ _

/-- After the three resolution writes, `MASTER_ADDR` is bound to its chain
value. -/
theorem envGet_after_phases_addr (w : World) :
    envGet (set_world_size_env (set_rank_env (set_master_addr w))).env
      "MASTER_ADDR" = some (spec_master_addr w.env) := by
  rw [resolve_phase_eq]
  show envGet (envSet (envSet (envSet w.env "MASTER_ADDR" (spec_master_addr w.env))
    "RANK" (spec_rank w.env)) "WORLD_SIZE" (spec_world_size w.env)) "MASTER_ADDR" =
    some (spec_master_addr w.env)
  rw [envGet_envSet_ne _ _ _ _ (by decide), envGet_envSet_ne _ _ _ _ (by decide)]
  exact envGet_envSet_self _ _ _

/-- After the three resolution writes, every key other than the three
written ones keeps its original binding. -/
theorem envGet_after_phases_other (w : World) (k : String)
    (h1 : k ≠ "MASTER_ADDR") (h2 : k ≠ "RANK") (h3 : k ≠ "WORLD_SIZE") :
    envGet (set_world_size_env (set_rank_env (set_master_addr w))).env k =
      envGet w.env k := by
  rw [resolve_phase_eq]
  show envGet (envSet (envSet (envSet w.env "MASTER_ADDR" (spec_master_addr w.env))
    "RANK" (spec_rank w.env)) "WORLD_SIZE" (spec_world_size w.env)) k = envGet w.env k
  rw [envGet_envSet_ne _ _ _ _ h3, envGet_envSet_ne _ _ _ _ h2,
    envGet_envSet_ne _ _ _ _ h1]

/-- A successful `init_distributed_env` run went through the `try` block
normally and then resolved the local rank. -/
theorem init_env_ok_cases (bk : String) (pg : Option PyError) (w : World)
    (v : Int) (w' : World) (hc : w.cuda_available = true)
    (h : init_distributed_env bk pg w = (Except.ok v, w')) :
    ∃ w4, env_try_block bk pg (set_world_size_env (set_rank_env
        (set_master_addr w))) = (Except.ok (), w4) ∧
      resolve_local_rank w4 = (Except.ok v, w') := by
  unfold init_distributed_env at h
  rw [if_pos hc] at h
  rcases hT : env_try_block bk pg (set_world_size_env (set_rank_env
      (set_master_addr w))) with ⟨r, w4⟩
  rw [hT] at h
  cases r with
  | error e => exact absurd h (env_except_handler_ne_ok e w4 v w')
  | ok u => exact ⟨w4, by cases u; rfl, h⟩

theorem tensorAdd_getD (a : Tensor) : ∀ (b : Tensor) (j : Nat),
    j < a.length → j < b.length →
    (tensorAdd a b).getD j 0 = a.getD j 0 + b.getD j 0 := by
  induction a with
  | nil => intro b j ha _; simp at ha
  | cons x xs ih =>
      intro b j ha hb
      cases b with
      | nil => simp at hb
      | cons y ys =>
          cases j with
          | zero => simp [tensorAdd]
          | succ j' =>
              show (List.zipWith (· + ·) (x :: xs) (y :: ys)).getD (j' + 1) 0 = _
              rw [List.zipWith_cons_cons, List.getD_cons_succ, List.getD_cons_succ,
                List.getD_cons_succ]
              exact ih ys j' (by simpa using ha) (by simpa using hb)

theorem allReduceSum_length (n : Nat) : ∀ ts : List Tensor,
    (∀ u ∈ ts, u.length = n) → ts ≠ [] → (allReduceSum ts).length = n := by
  intro ts
  induction ts with
  | nil => intro _ hne; cases hne rfl
  | cons t rest ih =>
      intro h _
      cases rest with
      | nil => simpa [allReduceSum] using h t (by simp)
      | cons u rs =>
          have hr := ih (fun v hv => h v (List.mem_cons_of_mem _ hv)) (by simp)
          show (tensorAdd t (allReduceSum (u :: rs))).length = n
          simp [tensorAdd, hr, h t (by simp)]

theorem allReduceSum_getD (n j : Nat) (hj : j < n) : ∀ ts : List Tensor,
    (∀ u ∈ ts, u.length = n) → ts ≠ [] →
    (allReduceSum ts).getD j 0 = (ts.map (fun u => u.getD j 0)).sum := by
  intro ts
  induction ts with
  | nil => intro _ hne; cases hne rfl
  | cons t rest ih =>
      intro h _
      cases rest with
      | nil => simp [allReduceSum]
      | cons u rs =>
          have hrest : ∀ v ∈ u :: rs, v.length = n :=
            fun v hv => h v (List.mem_cons_of_mem _ hv)
          have hlen := allReduceSum_length n (u :: rs) hrest (by simp)
          show (tensorAdd t (allReduceSum (u :: rs))).getD j 0 = _
          rw [tensorAdd_getD t (allReduceSum (u :: rs)) j
              (by rw [h t (by simp)]; exact hj) (by rw [hlen]; exact hj),
            ih hrest (by simp)]
          simp

/-! ### The claims -/

/-- C4: when no process group has been formed, every query returns its
default — `get_rank() = 0`, `get_world_size() = 1`, `is_master_process() =
true`, `synchronize()` leaves the state unchanged, and
`average_across_processes(t)` returns `t` unchanged. -/
theorem queries_default_when_no_group (w : World) (ts : List Tensor) (t : Tensor)
    (h : w.dist_group = none) :
    get_rank w = 0 ∧ get_world_size w = 1 ∧ is_master_process w = true ∧
    synchronize w = w ∧ average_across_processes w ts t = t := by
  refine ⟨?_, ?_, ?_, synchronize_eq w, ?_⟩ <;>
    simp [get_rank, get_world_size, is_master_process, average_across_processes, h]

/-- C4 witness: the defaults, evaluated in the single-process base world. -/
theorem queries_default_when_no_group_witness :
    get_rank baseWorld = 0 ∧ get_world_size baseWorld = 1 ∧
    is_master_process baseWorld = true ∧ synchronize baseWorld = baseWorld ∧
    average_across_processes baseWorld [[1], [3]] [2] = [2] :=
  queries_default_when_no_group baseWorld [[1], [3]] [2] rfl

/-- C6: without an available CUDA device, both initialization functions fail
at entry with the `AssertionError` "Cannot use GPU, CUDA not found!" (the
spec's `DeviceUnavailable`), returning the state untouched — no environment
variable has been read or written. -/
theorem no_cuda_fails_at_entry (w : World) (bk url : String) (pg : Option PyError)
    (lr mr g m : Int) (h : w.cuda_available = false) :
    init_distributed_env bk pg w =
      (Except.error (PyError.assertionError "Cannot use GPU, CUDA not found!"), w) ∧
    init_distributed_tcp lr mr g m url bk pg w =
      (Except.error (PyError.assertionError "Cannot use GPU, CUDA not found!"), w) := by
  constructor <;> simp [init_distributed_env, init_distributed_tcp, h]

/-- C6 witness: both entry failures at a concrete CUDA-less world. -/
theorem no_cuda_fails_at_entry_witness :
    init_distributed_env "nccl" none { baseWorld with cuda_available := false } =
      (Except.error (PyError.assertionError "Cannot use GPU, CUDA not found!"),
        { baseWorld with cuda_available := false }) ∧
    init_distributed_tcp 0 0 1 1 "tcp://127.0.0.1:23456" "nccl" none
        { baseWorld with cuda_available := false } =
      (Except.error (PyError.assertionError "Cannot use GPU, CUDA not found!"),
        { baseWorld with cuda_available := false }) :=
  no_cuda_fails_at_entry { baseWorld with cuda_available := false }
    "nccl" "tcp://127.0.0.1:23456" none 0 0 1 1 rfl

/-- C5: `init_distributed_tcp` computes `world_size = num_machines *
num_gpus_per_machine` and `rank = machine_rank * num_gpus_per_machine +
local_rank`: when that world size exceeds one and group formation succeeds,
the formed group carries exactly those two values and the call returns the
given `local_rank`. -/
theorem tcp_computes_world_size_and_rank (lr mr g m : Int) (url bk : String)
    (w : World) (h0 : 0 ≤ lr) (h1 : 0 ≤ mr) (h2 : 0 ≤ g) (h3 : 0 ≤ m)
    (hc : w.cuda_available = true) (hw : 1 < tcp_world_size m g) :
    (init_distributed_tcp lr mr g m url bk none w).1 = Except.ok lr ∧
    (init_distributed_tcp lr mr g m url bk none w).2.dist_group =
      some ⟨tcp_world_size m g, tcp_world_rank mr g lr⟩ := by
  unfold init_distributed_tcp tcp_try_block init_process_group_tcp
  simp [hc, hw, synchronize_eq, set_device]

/-- C5 witness: `local_rank=1, machine_rank=1, num_gpus_per_machine=2,
num_machines=2` yields `world_size = 4` and `rank = 3`. -/
theorem tcp_computes_world_size_and_rank_witness :
    (init_distributed_tcp 1 1 2 2 "tcp://127.0.0.1:23456" "nccl" none baseWorld).1 =
      Except.ok 1 ∧
    (init_distributed_tcp 1 1 2 2 "tcp://127.0.0.1:23456" "nccl" none
      baseWorld).2.dist_group = some ⟨4, 3⟩ :=
  tcp_computes_world_size_and_rank 1 1 2 2 "tcp://127.0.0.1:23456" "nccl"
    baseWorld (by decide) (by decide) (by decide) (by decide) rfl (by decide)

/-- C7: in every state, `is_master_process()` holds exactly when
`get_rank()` is zero; and after successful group formation from `RANK=2`,
`WORLD_SIZE=4` the rank is `2` and the process is not master. -/
theorem master_iff_rank_zero :
    (∀ w : World, is_master_process w = true ↔ get_rank w = 0) ∧
    get_rank ((init_distributed_env "nccl" none rankTwoWorld).2) = 2 ∧
    is_master_process ((init_distributed_env "nccl" none rankTwoWorld).2) = false := by
  refine ⟨fun w => ?_, by decide, by decide⟩
  simp [is_master_process]

/-- C1: every successful `init_distributed_env` run resolves each bootstrap
parameter through its fallback chain — explicit override, then scheduler
variable, then hardcoded default (`MASTER_ADDR` from the last
comma-separated entry of `SLURM_NODELIST`, then `"localhost"`; `RANK` from
`SLURM_PROCID`, then `"0"`; `WORLD_SIZE` from `SLURM_NTASKS`, then `"1"`;
`LOCAL_RANK` from `SLURM_LOCALID`, then `"0"`) — and returns the resolved
`LOCAL_RANK` as an integer. -/
theorem env_resolves_fallback_chains (bk : String) (pg : Option PyError)
    (w : World) (v : Int) (w' : World)
    (h : init_distributed_env bk pg w = (Except.ok v, w')) :
    envGet w'.env "MASTER_ADDR" = some (spec_master_addr w.env) ∧
    envGet w'.env "RANK" = some (spec_rank w.env) ∧
    envGet w'.env "WORLD_SIZE" = some (spec_world_size w.env) ∧
    pyInt? (spec_local_rank w.env) = some v := by
  cases hc : w.cuda_available with
  | false => simp [init_distributed_env, hc] at h
  | true =>
      obtain ⟨w4, hT, hR⟩ := init_env_ok_cases bk pg w v w' hc h
      obtain ⟨hP, hw'⟩ := resolve_local_rank_ok w4 v w' hR
      have henv4 : w4.env = (set_world_size_env (set_rank_env
          (set_master_addr w))).env := by
        have hE := env_try_block_env bk pg (set_world_size_env (set_rank_env
          (set_master_addr w)))
        rw [hT] at hE
        exact hE
      have henv3 : (set_world_size_env (set_rank_env (set_master_addr w))).env =
          envSet (envSet (envSet w.env "MASTER_ADDR" (spec_master_addr w.env))
            "RANK" (spec_rank w.env)) "WORLD_SIZE" (spec_world_size w.env) := by
        rw [resolve_phase_eq]
      have hweq : w'.env = w4.env := by rw [hw']
      rw [henv3] at henv4
      rw [henv4, spec_local_rank_writes] at hP
      refine ⟨?_, ?_, ?_, hP⟩ <;> rw [hweq, henv4]
      · rw [envGet_envSet_ne _ _ _ _ (by decide),
          envGet_envSet_ne _ _ _ _ (by decide), envGet_envSet_self]
      · rw [envGet_envSet_ne _ _ _ _ (by decide), envGet_envSet_self]
      · rw [envGet_envSet_self]

/-- C1 witness: a run from a SLURM-style environment — `SLURM_NODELIST`
holds two hosts, `SLURM_PROCID=3`, `SLURM_NTASKS=4`, `SLURM_LOCALID=1`, and
an explicit `WORLD_SIZE=1` override suppresses group formation. -/
theorem env_resolves_fallback_chains_witness :
    envGet (init_distributed_env "nccl" none slurmWorld).2.env "MASTER_ADDR" =
      some "node2" ∧
    pyInt? (spec_local_rank slurmWorld.env) = some 1 := by
  have h := env_resolves_fallback_chains "nccl" none slurmWorld 1
    (init_distributed_env "nccl" none slurmWorld).2 (by rfl)
  exact ⟨by rw [h.1]; rfl, h.2.2.2⟩

/-- C9: when the resolved `WORLD_SIZE` is at most `1` (and the resolved
`LOCAL_RANK` is numeric), `init_distributed_env` succeeds whatever the state
of `MASTER_PORT`, and the exact sequence of environment keys it looks up
never includes `MASTER_PORT` — no group formation is attempted, so the
error-logging branch holding the only `MASTER_PORT` lookup is unreachable. -/
theorem master_port_unread_single_process (bk : String) (pg : Option PyError)
    (w : World) (s l : Int) (hc : w.cuda_available = true)
    (hs : pyInt? (spec_world_size w.env) = some s) (hle : s ≤ 1)
    (hl : pyInt? (spec_local_rank w.env) = some l) :
    (init_distributed_env bk pg w).1 = Except.ok l ∧
    (init_distributed_env bk pg w).2.reads = w.reads ++
      ["SLURM_NODELIST", "MASTER_ADDR", "SLURM_PROCID", "RANK",
       "SLURM_NTASKS", "WORLD_SIZE", "WORLD_SIZE", "SLURM_LOCALID",
       "LOCAL_RANK"] ∧
    "MASTER_PORT" ∉ (["SLURM_NODELIST", "MASTER_ADDR", "SLURM_PROCID", "RANK",
       "SLURM_NTASKS", "WORLD_SIZE", "WORLD_SIZE", "SLURM_LOCALID",
       "LOCAL_RANK"] : List String) := by
  have hT := env_try_block_le_one bk pg
    (set_world_size_env (set_rank_env (set_master_addr w)))
    (spec_world_size w.env) s (envGet_after_phases_ws w) hs hle
  rw [init_env_eval_ok bk pg w _ hc hT,
    resolve_local_rank_of_parse _ l (by
      show pyInt? (spec_local_rank (set_world_size_env (set_rank_env
        (set_master_addr w))).env) = some l
      rw [spec_local_rank_after_phases]
      exact hl)]
  refine ⟨rfl, ?_, by decide⟩
  rw [resolve_phase_eq]
  simp [List.append_assoc]

/-- C9 witness: an empty environment (everything defaults, `WORLD_SIZE`
resolves to `"1"`, no `MASTER_PORT` anywhere), with the oracle set so that
any attempted group formation would fail — yet the call returns `0` and
`MASTER_PORT` is never looked up. -/
theorem master_port_unread_single_process_witness :
    (init_distributed_env "nccl" (some (PyError.distError "boom")) baseWorld).1 =
      Except.ok 0 ∧
    (init_distributed_env "nccl" (some (PyError.distError "boom"))
        baseWorld).2.reads =
      baseWorld.reads ++ ["SLURM_NODELIST", "MASTER_ADDR", "SLURM_PROCID",
        "RANK", "SLURM_NTASKS", "WORLD_SIZE", "WORLD_SIZE", "SLURM_LOCALID",
        "LOCAL_RANK"] ∧
    "MASTER_PORT" ∉ (["SLURM_NODELIST", "MASTER_ADDR", "SLURM_PROCID", "RANK",
       "SLURM_NTASKS", "WORLD_SIZE", "WORLD_SIZE", "SLURM_LOCALID",
       "LOCAL_RANK"] : List String) :=
  master_port_unread_single_process "nccl" (some (PyError.distError "boom"))
    baseWorld 1 0 rfl (by decide) (by decide) (by decide)

/-- C10: `init_distributed_env` writes at most the three environment keys
`MASTER_ADDR`, `RANK` and `WORLD_SIZE`; every other key — `LOCAL_RANK`,
`SLURM_LOCALID` and `MASTER_PORT` included — is left exactly as it was, on
every execution path. -/
theorem env_writes_at_most_three (bk : String) (pg : Option PyError) (w : World)
    (k : String) (h1 : k ≠ "MASTER_ADDR") (h2 : k ≠ "RANK")
    (h3 : k ≠ "WORLD_SIZE") :
    envGet (init_distributed_env bk pg w).2.env k = envGet w.env k := by
  cases hc : w.cuda_available with
  | false => simp [init_distributed_env, hc]
  | true =>
      have hk : ∀ u : World, u.env = (set_world_size_env (set_rank_env
          (set_master_addr w))).env → envGet u.env k = envGet w.env k := by
        intro u hu
        rw [hu]
        exact envGet_after_phases_other w k h1 h2 h3
      unfold init_distributed_env
      rw [if_pos hc]
      rcases hT : env_try_block bk pg (set_world_size_env (set_rank_env
          (set_master_addr w))) with ⟨r, w4⟩
      have henv4 : w4.env = (set_world_size_env (set_rank_env
          (set_master_addr w))).env := by
        have hE := env_try_block_env bk pg (set_world_size_env (set_rank_env
          (set_master_addr w)))
        rw [hT] at hE
        exact hE
      cases r with
      | error e =>
          show envGet (env_except_handler e w4).2.env k = envGet w.env k
          rw [env_except_handler_env]
          exact hk w4 henv4
      | ok u =>
          show envGet (resolve_local_rank w4).2.env k = envGet w.env k
          rw [resolve_local_rank_env]
          exact hk w4 henv4

/-- C10 witness: `LOCAL_RANK` (set in the environment) is untouched by a
full successful run, and `SLURM_LOCALID` (absent) stays absent. -/
theorem env_writes_at_most_three_witness :
    envGet (init_distributed_env "nccl" none slurmWorld).2.env "LOCAL_RANK" =
      envGet slurmWorld.env "LOCAL_RANK" ∧
    envGet (init_distributed_env "nccl" none slurmWorld).2.env "SLURM_LOCALID" =
      envGet slurmWorld.env "SLURM_LOCALID" :=
  ⟨env_writes_at_most_three "nccl" none slurmWorld "LOCAL_RANK"
      (by decide) (by decide) (by decide),
    env_writes_at_most_three "nccl" none slurmWorld "SLURM_LOCALID"
      (by decide) (by decide) (by decide)⟩

/-- C2 counterexample: the claimed invariant `0 ≤ local_rank ≤ rank <
world_size` fails on a configuration the code resolves without complaint —
`init_distributed_tcp(local_rank=1, machine_rank=1, num_gpus_per_machine=1,
num_machines=2)` forms a group with `world_size = 2` and `rank = 2`, and
`2 < 2` is false.  The code validates none of its inputs. -/
theorem bootstrap_invariant_cex :
    (init_distributed_tcp 1 1 1 2 "tcp://127.0.0.1:23456" "nccl" none
      baseWorld).2.dist_group = some ⟨2, 2⟩ ∧ ¬ ((2 : Int) < 2) :=
  ⟨by rfl, by decide⟩

/-- C2 (amended): the invariant `0 ≤ local_rank ≤ rank < world_size` holds
for `init_distributed_tcp` under the in-range preconditions `0 ≤ local_rank
< num_gpus_per_machine` and `0 ≤ machine_rank < num_machines`; for
`init_distributed_env` the code copies `RANK`/`WORLD_SIZE`/`LOCAL_RANK`
verbatim from the environment, so the group it forms satisfies the
invariant exactly when the environment-resolved values already do. -/
theorem bootstrap_invariant_amended (lr mr g m : Int) (url bk : String)
    (w we : World) (s r l : Int)
    (h0 : 0 ≤ lr) (h1 : 0 ≤ mr) (h2 : lr < g) (h3 : mr < m)
    (hc : w.cuda_available = true) (hg : 1 < tcp_world_size m g)
    (hce : we.cuda_available = true)
    (hs : pyInt? (spec_world_size we.env) = some s) (h1s : 1 < s)
    (hr : pyInt? (spec_rank we.env) = some r)
    (hl : pyInt? (spec_local_rank we.env) = some l)
    (hinv : 0 ≤ l ∧ l ≤ r ∧ r < s) :
    (0 ≤ lr ∧ lr ≤ tcp_world_rank mr g lr ∧
      tcp_world_rank mr g lr < tcp_world_size m g ∧
      (init_distributed_tcp lr mr g m url bk none w).2.dist_group =
        some ⟨tcp_world_size m g, tcp_world_rank mr g lr⟩) ∧
    ((init_distributed_env bk none we).2.dist_group = some ⟨s, r⟩ ∧
      0 ≤ l ∧ l ≤ r ∧ r < s) := by
  have hg0 : (0 : Int) < g := lt_of_le_of_lt h0 h2
  have hmul : (0 : Int) ≤ mr * g := mul_nonneg h1 hg0.le
  have h4 : (mr + 1) * g ≤ m * g :=
    mul_le_mul_of_nonneg_right (by linarith) hg0.le
  rw [add_one_mul] at h4
  refine ⟨⟨h0, ?_, ?_, ?_⟩, ?_, hinv.1, hinv.2.1, hinv.2.2⟩
  · unfold tcp_world_rank
    linarith
  · unfold tcp_world_rank tcp_world_size
    linarith
  · unfold init_distributed_tcp tcp_try_block init_process_group_tcp
    simp [hc, hg, synchronize_eq, set_device]
  · have hR : ((envGet (set_world_size_env (set_rank_env
        (set_master_addr we))).env "RANK").bind pyInt?).getD 0 = r := by
      rw [envGet_after_phases_rank]
      simp [hr]
    have hT := env_try_block_gt_one_ok bk
      (set_world_size_env (set_rank_env (set_master_addr we)))
      (spec_world_size we.env) s r (envGet_after_phases_ws we) hs h1s hR
    rw [init_env_eval_ok bk none we _ hce hT,
      resolve_local_rank_of_parse _ l (by
        show pyInt? (spec_local_rank (set_world_size_env (set_rank_env
          (set_master_addr we))).env) = some l
        rw [spec_local_rank_after_phases]
        exact hl)]

/-- C2 witness: the amended invariant at `local_rank=1, machine_rank=1,
num_gpus_per_machine=2, num_machines=2` and at an environment with `RANK=2`,
`WORLD_SIZE=4`. -/
theorem bootstrap_invariant_amended_witness :
    ((0 : Int) ≤ 1 ∧ (1 : Int) ≤ tcp_world_rank 1 2 1 ∧
      tcp_world_rank 1 2 1 < tcp_world_size 2 2 ∧
      (init_distributed_tcp 1 1 2 2 "tcp://127.0.0.1:23456" "nccl" none
        baseWorld).2.dist_group =
        some ⟨tcp_world_size 2 2, tcp_world_rank 1 2 1⟩) ∧
    ((init_distributed_env "nccl" none rankTwoWorld).2.dist_group =
        some ⟨4, 2⟩ ∧
      (0 : Int) ≤ 0 ∧ (0 : Int) ≤ 2 ∧ (2 : Int) < 4) :=
  bootstrap_invariant_amended 1 1 2 2 "tcp://127.0.0.1:23456" "nccl"
    baseWorld rankTwoWorld 4 2 0 (by decide) (by decide) (by decide)
    (by decide) rfl (by decide) rfl (by decide) (by decide) (by decide)
    (by decide) ⟨by decide, by decide, by decide⟩

/-- C3 counterexample: a run of `init_distributed_env` in which group
formation raises while `MASTER_PORT` is absent — the handler's own
`os.environ["MASTER_PORT"]` lookup raises `KeyError`, so the caller
observes `KeyError("MASTER_PORT")` instead of the original failure, and
nothing at all is logged. -/
theorem log_and_reraise_cex :
    (init_distributed_env "nccl" (some (PyError.distError "connection refused"))
      portlessWorld).1 = Except.error (PyError.keyError "MASTER_PORT") ∧
    (init_distributed_env "nccl" (some (PyError.distError "connection refused"))
      portlessWorld).2.logs = [] :=
  ⟨by rfl, by rfl⟩

/-- C3 (amended): when group formation raises, the helper logs the resolved
rendezvous coordinates and re-raises the original exception unchanged —
unconditionally so for `init_distributed_tcp` (which logs its `dist_url`),
and for `init_distributed_env` provided `MASTER_PORT` is present in the
environment (its handler re-reads `MASTER_ADDR` and `MASTER_PORT` with
subscript lookups, so a missing `MASTER_PORT` replaces the failure with a
`KeyError`). -/
theorem log_and_reraise_amended (w wt : World) (bk url : String)
    (e et : PyError) (s : Int) (p : String) (lr mr g m : Int)
    (hc : w.cuda_available = true)
    (hs : pyInt? (spec_world_size w.env) = some s) (h1s : 1 < s)
    (hp : envGet w.env "MASTER_PORT" = some p)
    (hct : wt.cuda_available = true) (hwt : 1 < tcp_world_size m g) :
    (init_distributed_env bk (some e) w).1 = Except.error e ∧
    (init_distributed_env bk (some e) w).2.logs =
      w.logs ++ ["Dist URL: " ++ spec_master_addr w.env ++ ":" ++ p] ∧
    (init_distributed_tcp lr mr g m url bk (some et) wt).1 = Except.error et ∧
    (init_distributed_tcp lr mr g m url bk (some et) wt).2.logs =
      wt.logs ++ ["Dist URL: " ++ url] := by
  have hT := env_try_block_gt_one_fail bk e
    (set_world_size_env (set_rank_env (set_master_addr w)))
    (spec_world_size w.env) s (envGet_after_phases_ws w) hs h1s
  rw [init_env_eval_error bk (some e) w _ e hc hT,
    env_except_handler_present e _ (spec_master_addr w.env) p
      (by
        show envGet (set_world_size_env (set_rank_env
          (set_master_addr w))).env "MASTER_ADDR" = some (spec_master_addr w.env)
        exact envGet_after_phases_addr w)
      (by
        show envGet (set_world_size_env (set_rank_env
          (set_master_addr w))).env "MASTER_PORT" = some p
        rw [envGet_after_phases_other w "MASTER_PORT" (by decide) (by decide)
          (by decide)]
        exact hp)]
  refine ⟨rfl, ?_, ?_, ?_⟩
  · rw [resolve_phase_eq]
  · unfold init_distributed_tcp tcp_try_block init_process_group_tcp
    simp [hct, hwt, logError]
  · unfold init_distributed_tcp tcp_try_block init_process_group_tcp
    simp [hct, hwt, logError]

/-- C3 witness: both amended behaviours at concrete inputs — the env
variant on `rankTwoWorld` (where `MASTER_PORT=29500` is present) and the
tcp variant on the base world, both with a failing group formation. -/
theorem log_and_reraise_amended_witness :
    (init_distributed_env "nccl" (some (PyError.distError "connection refused"))
      rankTwoWorld).1 = Except.error (PyError.distError "connection refused") ∧
    (init_distributed_env "nccl" (some (PyError.distError "connection refused"))
      rankTwoWorld).2.logs = rankTwoWorld.logs ++
      ["Dist URL: " ++ spec_master_addr rankTwoWorld.env ++ ":" ++ "29500"] ∧
    (init_distributed_tcp 0 0 2 1 "tcp://127.0.0.1:23456" "nccl"
      (some (PyError.distError "connection refused")) baseWorld).1 =
      Except.error (PyError.distError "connection refused") ∧
    (init_distributed_tcp 0 0 2 1 "tcp://127.0.0.1:23456" "nccl"
      (some (PyError.distError "connection refused")) baseWorld).2.logs =
      baseWorld.logs ++ ["Dist URL: " ++ "tcp://127.0.0.1:23456"] :=
  log_and_reraise_amended rankTwoWorld baseWorld "nccl" "tcp://127.0.0.1:23456"
    (PyError.distError "connection refused") (PyError.distError "connection refused")
    4 "29500" 0 0 2 1 rfl (by decide) (by decide) (by decide) rfl (by decide)

/-- C8: when a group of `N = ts.length` processes exists and the group's
processes hold the tensors `ts`, `average_across_processes` leaves every
process (whatever member tensor it holds) with the identical tensor whose
`j`-th entry is the sum of the `j`-th entries across processes divided by
the world size `N`. -/
theorem mean_reduce_averages (ts : List Tensor) (n : Nat) (r : Int) (w : World)
    (t : Tensor) (j : Nat)
    (hw : w.dist_group = some ⟨(ts.length : Int), r⟩)
    (hlen : ∀ u ∈ ts, u.length = n) (ht : t ∈ ts) (hj : j < n) :
    (average_across_processes w ts t).getD j 0 =
      (ts.map (fun u => u.getD j 0)).sum / (ts.length : ℚ) ∧
    ∀ t2 ∈ ts, average_across_processes w ts t2 =
      average_across_processes w ts t := by
  have hne : ts ≠ [] := List.ne_nil_of_mem ht
  constructor
  · have hsome : w.dist_group.isSome = true := by rw [hw]; rfl
    have hws : get_world_size w = (ts.length : Int) := by
      simp [get_world_size, hw]
    have hlength : (allReduceSum ts).length = n := allReduceSum_length n ts hlen hne
    have hjs : j < (allReduceSum ts).length := by rw [hlength]; exact hj
    unfold average_across_processes tensorDiv
    rw [if_pos hsome, hws,
      List.getD_eq_getElem _ _ (by simpa using hjs), List.getElem_map,
      ← List.getD_eq_getElem (allReduceSum ts) (0 : ℚ) hjs,
      allReduceSum_getD n j hj ts hlen hne]
    norm_cast
  · intro t2 _
    simp [average_across_processes, hw]

/-- C8 witness: two processes holding `[1]` and `[3]`; whichever of the two
tensors the calling process holds, the result entry is `(1 + 3) / 2 = 2`. -/
theorem mean_reduce_averages_witness :
    (average_across_processes groupedWorld [[1], [3]] [1]).getD 0 0 =
      (([[1], [3]] : List Tensor).map (fun u => u.getD 0 0)).sum /
        (([[1], [3]] : List Tensor).length : ℚ) ∧
    average_across_processes groupedWorld [[1], [3]] [3] =
      average_across_processes groupedWorld [[1], [3]] [1] :=
  ⟨(mean_reduce_averages [[1], [3]] 1 0 groupedWorld [1] 0 rfl
      (by decide) (List.Mem.head _) (by decide)).1,
    (mean_reduce_averages [[1], [3]] 1 0 groupedWorld [1] 0 rfl
      (by decide) (List.Mem.head _) (by decide)).2 [3]
      (List.Mem.tail _ (List.Mem.head _))⟩

end Viswsl
